import Mathlib

/-
Verification of the search-job orchestration and resilience layer of the
imaginario-video-search-platform repository.

The repository sources available here are the top-level README (which documents
the circuit breaker configuration and state diagram), the search-microservice
README, and the Next.js frontend (api client, redux slices, the useWebSocket
hook and the developer dashboard page).  The backend Python applications
(api-gateway/app.py and search-microservice/app.py) are not part of the
available sources; components that live there (circuit breaker, job store,
strategy registry, notification hub) are modelled from the specification, and
each such definition says so in its doc comment.  Frontend behaviour (the axios
response interceptor, the client submitSearch payload, the useWebSocket hook)
is embedded directly from the TypeScript sources.
-/

/- ## Circuit breaker (api-gateway) -/

/-- Circuit breaker states, as in the README state diagram
(CLOSED / OPEN / HALF_OPEN). -/
inductive CBState
  | CLOSED
  | OPEN
  | HALF_OPEN
deriving DecidableEq, Repr

/-- Outcome of the wrapped downstream operation, had it been invoked. -/
inductive CallOutcome
  | success
  | failure
deriving DecidableEq, Repr

/-- What the caller of `execute` observes: either the operation's outcome, or a
fast rejection issued without invoking the operation. -/
inductive ExecuteResult
  | result (o : CallOutcome)
  | rejected
deriving DecidableEq, Repr

/-- Modelled from the spec: the CircuitBreakerState singleton described in §3 of
the spec and configured in the README (the implementing class in
api-gateway/app.py is not among the available sources).  Holds the current
state, the consecutive-failure counter, the timestamp of the last state
transition, and the count of trial calls issued while HALF_OPEN. -/
structure CircuitBreaker where
  state : CBState
  consecutiveFailures : Nat
  lastTransitionAt : Nat
  halfOpenCalls : Nat
deriving DecidableEq, Repr

/-- Failure threshold: 5 consecutive failures (README "Configuration"). -/
def failureThreshold : Nat := 5

/-- Recovery timeout: 30 seconds, in milliseconds (README "Configuration"). -/
def recoveryTimeoutMs : Nat := 30000

/-- Half-open max calls: 3 test requests (README "Configuration"). -/
def halfOpenMaxCalls : Nat := 3

/-- A fresh breaker: CLOSED with the failure counter at 0. -/
def initialBreaker : CircuitBreaker :=
  { state := .CLOSED, consecutiveFailures := 0, lastTransitionAt := 0, halfOpenCalls := 0 }

/-- Result of one `execute` call: what the caller sees, the breaker afterwards,
and whether the wrapped operation was actually invoked. -/
structure ExecStep where
  result : ExecuteResult
  breaker : CircuitBreaker
  invoked : Bool
deriving DecidableEq, Repr

/-- Modelled from the spec: a trial call while the breaker is HALF_OPEN
(spec §4.1).  Up to `halfOpenMaxCalls` calls are allowed through; a success
transitions to CLOSED and resets the failure counter; any failure immediately
transitions back to OPEN and resets the recovery timer. -/
def halfOpenTrial (cb : CircuitBreaker) (now : Nat) (op : CallOutcome) : ExecStep :=
  if cb.halfOpenCalls ≥ halfOpenMaxCalls then
    { result := .rejected, breaker := cb, invoked := false }
  else
    match op with
    | .success =>
        { result := .result .success,
          breaker := { state := .CLOSED, consecutiveFailures := 0,
                       lastTransitionAt := now, halfOpenCalls := 0 },
          invoked := true }
    | .failure =>
        { result := .result .failure,
          breaker := { state := .OPEN, consecutiveFailures := cb.consecutiveFailures,
                       lastTransitionAt := now, halfOpenCalls := 0 },
          invoked := true }

/-- Modelled from the spec: `execute(operation)` of the CircuitBreaker in
api-gateway/app.py (absent from the available sources), following spec §4.1 and
the README state diagram.  In CLOSED, calls pass through, a success resets the
consecutive-failure counter, each failure increments it and reaching the
threshold transitions to OPEN recording the transition time.  In OPEN, calls
are rejected without invoking the operation until the recovery timeout has
elapsed, at which point the breaker moves to HALF_OPEN and the call proceeds as
the first trial call. -/
def CircuitBreaker.execute (cb : CircuitBreaker) (now : Nat) (op : CallOutcome) : ExecStep :=
  match cb.state with
  | .CLOSED =>
      match op with
      | .success =>
          { result := .result .success,
            breaker := { cb with consecutiveFailures := 0 }, invoked := true }
      | .failure =>
          if cb.consecutiveFailures + 1 ≥ failureThreshold then
            { result := .result .failure,
              breaker := { state := .OPEN, consecutiveFailures := cb.consecutiveFailures + 1,
                           lastTransitionAt := now, halfOpenCalls := 0 },
              invoked := true }
          else
            { result := .result .failure,
              breaker := { cb with consecutiveFailures := cb.consecutiveFailures + 1 },
              invoked := true }
  | .OPEN =>
      if now - cb.lastTransitionAt < recoveryTimeoutMs then
        { result := .rejected, breaker := cb, invoked := false }
      else
        halfOpenTrial { cb with state := .HALF_OPEN, halfOpenCalls := 0 } now op
  | .HALF_OPEN => halfOpenTrial cb now op

/-- Run a sequence of calls through the breaker, each given as a timestamp and
the outcome the wrapped operation would produce; returns the final breaker. -/
def runCalls (cb : CircuitBreaker) : List (Nat × CallOutcome) → CircuitBreaker
  | [] => cb
  | (t, o) :: rest => runCalls (cb.execute t o).breaker rest

/-- C1: for every sequence of 5 consecutive failed calls starting from CLOSED
with failure counter 0, the breaker transitions to OPEN, and a 6th call issued
before the recovery timeout has elapsed is rejected without the wrapped
operation being invoked, with the breaker reporting state OPEN. -/
theorem breaker_opens_after_five_failures (t1 t2 t3 t4 t5 t6 : Nat) (op6 : CallOutcome)
    (h : t6 - t5 < recoveryTimeoutMs) :
    (runCalls initialBreaker
        [(t1, .failure), (t2, .failure), (t3, .failure), (t4, .failure), (t5, .failure)]).state
      = CBState.OPEN ∧
    ((runCalls initialBreaker
        [(t1, .failure), (t2, .failure), (t3, .failure), (t4, .failure), (t5, .failure)]).execute
        t6 op6).result = ExecuteResult.rejected ∧
    ((runCalls initialBreaker
        [(t1, .failure), (t2, .failure), (t3, .failure), (t4, .failure), (t5, .failure)]).execute
        t6 op6).invoked = false ∧
    ((runCalls initialBreaker
        [(t1, .failure), (t2, .failure), (t3, .failure), (t4, .failure), (t5, .failure)]).execute
        t6 op6).breaker.state = CBState.OPEN := by
  have hrun : runCalls initialBreaker
      [(t1, .failure), (t2, .failure), (t3, .failure), (t4, .failure), (t5, .failure)]
      = { state := .OPEN, consecutiveFailures := 5, lastTransitionAt := t5, halfOpenCalls := 0 } := by
    simp [runCalls, CircuitBreaker.execute, initialBreaker, failureThreshold]
  rw [hrun]
  simp [CircuitBreaker.execute, h]

/-- Closed instance of `breaker_opens_after_five_failures` at concrete
timestamps 0..5 and a failing 6th operation. -/
theorem breaker_opens_after_five_failures_witness :
    (runCalls initialBreaker
        [(0, .failure), (1, .failure), (2, .failure), (3, .failure), (4, .failure)]).state
      = CBState.OPEN ∧
    ((runCalls initialBreaker
        [(0, .failure), (1, .failure), (2, .failure), (3, .failure), (4, .failure)]).execute
        5 CallOutcome.failure).result = ExecuteResult.rejected ∧
    ((runCalls initialBreaker
        [(0, .failure), (1, .failure), (2, .failure), (3, .failure), (4, .failure)]).execute
        5 CallOutcome.failure).invoked = false ∧
    ((runCalls initialBreaker
        [(0, .failure), (1, .failure), (2, .failure), (3, .failure), (4, .failure)]).execute
        5 CallOutcome.failure).breaker.state = CBState.OPEN :=
  breaker_opens_after_five_failures 0 1 2 3 4 5 CallOutcome.failure (by decide)

/-- C3: once the recovery timeout has elapsed since the transition to OPEN, the
next execute call is allowed through (as a HALF_OPEN trial); a success
transitions the breaker to CLOSED with the consecutive-failure counter reset to
0, and a failure transitions it back to OPEN and restarts the recovery timer at
the time of that call. -/
theorem open_breaker_recovery (cb : CircuitBreaker) (t : Nat)
    (hs : cb.state = CBState.OPEN) (ht : recoveryTimeoutMs ≤ t - cb.lastTransitionAt) :
    ((cb.execute t .success).invoked = true ∧
     (cb.execute t .success).breaker.state = CBState.CLOSED ∧
     (cb.execute t .success).breaker.consecutiveFailures = 0) ∧
    ((cb.execute t .failure).invoked = true ∧
     (cb.execute t .failure).breaker.state = CBState.OPEN ∧
     (cb.execute t .failure).breaker.lastTransitionAt = t) := by
  obtain ⟨st, f, lt, hc⟩ := cb
  simp only at hs
  subst hs
  have hnot : ¬ (t - lt < recoveryTimeoutMs) := Nat.not_lt.mpr ht
  simp [CircuitBreaker.execute, halfOpenTrial, hnot, halfOpenMaxCalls]

/-- Closed instance of `open_breaker_recovery`: a breaker that opened at time 0
with 5 consecutive failures, probed at time 30000. -/
theorem open_breaker_recovery_witness :
    ((CircuitBreaker.execute
        { state := .OPEN, consecutiveFailures := 5, lastTransitionAt := 0, halfOpenCalls := 0 }
        30000 .success).invoked = true ∧
     (CircuitBreaker.execute
        { state := .OPEN, consecutiveFailures := 5, lastTransitionAt := 0, halfOpenCalls := 0 }
        30000 .success).breaker.state = CBState.CLOSED ∧
     (CircuitBreaker.execute
        { state := .OPEN, consecutiveFailures := 5, lastTransitionAt := 0, halfOpenCalls := 0 }
        30000 .success).breaker.consecutiveFailures = 0) ∧
    ((CircuitBreaker.execute
        { state := .OPEN, consecutiveFailures := 5, lastTransitionAt := 0, halfOpenCalls := 0 }
        30000 .failure).invoked = true ∧
     (CircuitBreaker.execute
        { state := .OPEN, consecutiveFailures := 5, lastTransitionAt := 0, halfOpenCalls := 0 }
        30000 .failure).breaker.state = CBState.OPEN ∧
     (CircuitBreaker.execute
        { state := .OPEN, consecutiveFailures := 5, lastTransitionAt := 0, halfOpenCalls := 0 }
        30000 .failure).breaker.lastTransitionAt = 30000) :=
  open_breaker_recovery
    { state := .OPEN, consecutiveFailures := 5, lastTransitionAt := 0, halfOpenCalls := 0 }
    30000 rfl (by decide)

/- ## Job data model and lifecycle (search-microservice) -/

/-- Job statuses, as listed in spec §4.2 and in the developer dashboard's
status filter (queued / processing / completed / failed / cancelled). -/
inductive JobStatus
  | queued
  | processing
  | completed
  | failed
  | cancelled
deriving DecidableEq, Repr

/-- A terminal status admits no further transition (spec §4.2). -/
def JobStatus.isTerminal : JobStatus → Bool
  | .completed => true
  | .failed => true
  | .cancelled => true
  | _ => false

/-- A single scored match, as rendered by the dashboard's job-details modal
(title, matched_text, relevance_score). -/
structure MatchResult where
  title : String
  matchedText : String
  relevanceScore : Rat
deriving DecidableEq, Repr

/-- The job record: the SearchJob fields of the frontend analytics slice
(job_id, user_id, query, algorithm, status, results_count, execution_time_ms,
created_at, completed_at, results), together with the submission document-id
set, the failure reason and the retry_of reference described in spec §3. -/
structure Job where
  jobId : String
  userId : Nat
  query : String
  algorithm : String
  documentIds : Option (List Nat)
  status : JobStatus
  results : List MatchResult
  resultsCount : Nat
  executionTimeMs : Option Nat
  createdAt : Nat
  completedAt : Option Nat
  failureReason : Option String
  retryOf : Option String
deriving DecidableEq, Repr

/-- The error taxonomy of spec §7. -/
inductive ApiError
  | InvalidInput
  | UnknownStrategy
  | NotAuthenticated
  | Forbidden
  | NotFound
  | InvalidStateTransition
deriving DecidableEq, Repr

/-- The operations that may touch a job's status: the executor claiming it,
the executor finishing with results or with a failure reason, and an explicit
cancel request. -/
inductive JobOp
  | start
  | complete (res : List MatchResult) (dur : Nat) (now : Nat)
  | fail (reason : String) (dur : Nat) (now : Nat)
  | cancel
deriving DecidableEq, Repr

/-- Modelled from the spec: the JobStore status mutations of spec §4.2 (the
implementing search-microservice/app.py is not among the available sources).
The executor claims a queued job (queued → processing) and drives it to
completed (with results and duration) or failed (with a reason); a cancel is
accepted only while the status is queued or processing; any other request is
rejected with InvalidStateTransition. -/
def applyOp (op : JobOp) (j : Job) : Except ApiError Job :=
  match op with
  | .start =>
      if j.status = .queued then .ok { j with status := .processing }
      else .error .InvalidStateTransition
  | .complete res dur now =>
      if j.status = .processing then
        .ok { j with status := .completed, results := res, resultsCount := res.length,
                     executionTimeMs := some dur, completedAt := some now }
      else .error .InvalidStateTransition
  | .fail reason dur now =>
      if j.status = .processing then
        .ok { j with status := .failed, failureReason := some reason,
                     executionTimeMs := some dur, completedAt := some now }
      else .error .InvalidStateTransition
  | .cancel =>
      if j.status = .queued ∨ j.status = .processing then .ok { j with status := .cancelled }
      else .error .InvalidStateTransition

/-- Apply a sequence of operations; a rejected operation leaves the job
unchanged. -/
def runOps (j : Job) : List JobOp → Job
  | [] => j
  | op :: rest =>
      match applyOp op j with
      | .ok j' => runOps j' rest
      | .error _ => runOps j rest

/-- The sequence of statuses a job takes over a sequence of operations:
its current status, followed by the statuses after each accepted operation. -/
def statusTrace (j : Job) : List JobOp → List JobStatus
  | [] => [j.status]
  | op :: rest =>
      match applyOp op j with
      | .ok j' => j.status :: statusTrace j' rest
      | .error _ => statusTrace j rest

theorem applyOp_terminal (op : JobOp) (j : Job) (h : j.status.isTerminal = true) :
    applyOp op j = .error .InvalidStateTransition := by
  cases op <;> cases hs : j.status <;>
    simp_all [applyOp, JobStatus.isTerminal]

theorem statusTrace_terminal (ops : List JobOp) (j : Job) (h : j.status.isTerminal = true) :
    statusTrace j ops = [j.status] := by
  induction ops with
  | nil => rfl
  | cons op rest ih => simp [statusTrace, applyOp_terminal op j h, ih]

theorem runOps_terminal (ops : List JobOp) (j : Job) (h : j.status.isTerminal = true) :
    runOps j ops = j := by
  induction ops with
  | nil => rfl
  | cons op rest ih => simp [runOps, applyOp_terminal op j h, ih]

theorem statusTrace_processing (ops : List JobOp) (j : Job) (h : j.status = .processing) :
    statusTrace j ops = [JobStatus.processing] ∨
    statusTrace j ops = [JobStatus.processing, JobStatus.completed] ∨
    statusTrace j ops = [JobStatus.processing, JobStatus.failed] ∨
    statusTrace j ops = [JobStatus.processing, JobStatus.cancelled] := by
  induction ops generalizing j with
  | nil => left; simp [statusTrace, h]
  | cons op rest ih =>
    cases op with
    | start => simpa [statusTrace, applyOp, h] using ih j h
    | complete res dur now =>
      right; left
      have hterm : statusTrace { j with status := JobStatus.completed, results := res,
                                        resultsCount := res.length, executionTimeMs := some dur,
                                        completedAt := some now }
          rest = [JobStatus.completed] :=
        statusTrace_terminal rest _ (by simp [JobStatus.isTerminal])
      simp [statusTrace, applyOp, h, hterm]
    | fail reason dur now =>
      right; right; left
      have hterm : statusTrace { j with status := JobStatus.failed,
                                        failureReason := some reason, executionTimeMs := some dur,
                                        completedAt := some now }
          rest = [JobStatus.failed] :=
        statusTrace_terminal rest _ (by simp [JobStatus.isTerminal])
      simp [statusTrace, applyOp, h, hterm]
    | cancel =>
      right; right; right
      have hterm : statusTrace { j with status := JobStatus.cancelled } rest
          = [JobStatus.cancelled] :=
        statusTrace_terminal rest _ (by simp [JobStatus.isTerminal])
      simp [statusTrace, applyOp, h, hterm]

theorem statusTrace_queued (ops : List JobOp) (j : Job) (h : j.status = .queued) :
    statusTrace j ops = [JobStatus.queued] ∨
    statusTrace j ops = [JobStatus.queued, JobStatus.processing] ∨
    statusTrace j ops = [JobStatus.queued, JobStatus.processing, JobStatus.completed] ∨
    statusTrace j ops = [JobStatus.queued, JobStatus.processing, JobStatus.failed] ∨
    statusTrace j ops = [JobStatus.queued, JobStatus.cancelled] ∨
    statusTrace j ops = [JobStatus.queued, JobStatus.processing, JobStatus.cancelled] := by
  induction ops generalizing j with
  | nil => left; simp [statusTrace, h]
  | cons op rest ih =>
    cases op with
    | start =>
      have hp : statusTrace { j with status := JobStatus.processing } rest
            = [JobStatus.processing] ∨
          statusTrace { j with status := JobStatus.processing } rest
            = [JobStatus.processing, JobStatus.completed] ∨
          statusTrace { j with status := JobStatus.processing } rest
            = [JobStatus.processing, JobStatus.failed] ∨
          statusTrace { j with status := JobStatus.processing } rest
            = [JobStatus.processing, JobStatus.cancelled] :=
        statusTrace_processing rest _ rfl
      rcases hp with hp | hp | hp | hp
      · right; left; simp [statusTrace, applyOp, h, hp]
      · right; right; left; simp [statusTrace, applyOp, h, hp]
      · right; right; right; left; simp [statusTrace, applyOp, h, hp]
      · right; right; right; right; right; simp [statusTrace, applyOp, h, hp]
    | complete res dur now => simpa [statusTrace, applyOp, h] using ih j h
    | fail reason dur now => simpa [statusTrace, applyOp, h] using ih j h
    | cancel =>
      right; right; right; right; left
      have hterm : statusTrace { j with status := JobStatus.cancelled } rest
          = [JobStatus.cancelled] :=
        statusTrace_terminal rest _ (by simp [JobStatus.isTerminal])
      simp [statusTrace, applyOp, h, hterm]

/-- C2: starting from status queued, the sequence of statuses a job takes over
any sequence of operations is one of the subsequences of
queued → processing → (completed | failed) or (queued | processing) →
cancelled; and once a job is in any terminal status (completed, failed or
cancelled) no sequence of operations changes its record. -/
theorem job_lifecycle_statuses (ops : List JobOp) (j : Job) :
    (statusTrace { j with status := JobStatus.queued } ops = [JobStatus.queued] ∨
     statusTrace { j with status := JobStatus.queued } ops
       = [JobStatus.queued, JobStatus.processing] ∨
     statusTrace { j with status := JobStatus.queued } ops
       = [JobStatus.queued, JobStatus.processing, JobStatus.completed] ∨
     statusTrace { j with status := JobStatus.queued } ops
       = [JobStatus.queued, JobStatus.processing, JobStatus.failed] ∨
     statusTrace { j with status := JobStatus.queued } ops
       = [JobStatus.queued, JobStatus.cancelled] ∨
     statusTrace { j with status := JobStatus.queued } ops
       = [JobStatus.queued, JobStatus.processing, JobStatus.cancelled]) ∧
    runOps { j with status := JobStatus.completed } ops = { j with status := JobStatus.completed } ∧
    runOps { j with status := JobStatus.failed } ops = { j with status := JobStatus.failed } ∧
    runOps { j with status := JobStatus.cancelled } ops = { j with status := JobStatus.cancelled } := by
  refine ⟨statusTrace_queued ops _ rfl, ?_, ?_, ?_⟩ <;>
    exact runOps_terminal ops _ (by simp [JobStatus.isTerminal])

/- ## Job store operations: cancel, retry, submission -/

/-- Look a job up by its identifier: the first record whose jobId matches. -/
def findJob : List Job → String → Option Job
  | [], _ => none
  | j :: rest, jid => if j.jobId = jid then some j else findJob rest jid

/-- Replace every job with the given identifier by `f` of it; all other
records are untouched. -/
def updateJob : List Job → String → (Job → Job) → List Job
  | [], _, _ => []
  | j :: rest, jid, f => (if j.jobId = jid then f j else j) :: updateJob rest jid f

theorem findJob_append_left (store store' : List Job) (jid : String) (j : Job)
    (h : findJob store jid = some j) :
    findJob (store ++ store') jid = some j := by
  induction store with
  | nil => simp [findJob] at h
  | cons a rest ih =>
    by_cases ha : a.jobId = jid
    · simp_all [findJob]
    · simp_all [findJob]

theorem findJob_update (store : List Job) (jid : String) (f : Job → Job) (j : Job)
    (hpres : ∀ x, (f x).jobId = x.jobId)
    (h : findJob store jid = some j) :
    findJob (updateJob store jid f) jid = some (f j) := by
  induction store with
  | nil => simp [findJob] at h
  | cons a rest ih =>
    by_cases ha : a.jobId = jid
    · simp_all [findJob, updateJob, hpres a]
    · simp_all [findJob, updateJob]

/-- Modelled from the spec: the cancel request of spec §4.2 and §6 (the
handling endpoint in the backend sources is not available).  Accepted only
while the status is queued or processing, moving the job to cancelled; against
a job in any other status it signals InvalidStateTransition and leaves the
store untouched. -/
def applyCancel (store : List Job) (jid : String) : List Job × Except ApiError Job :=
  match findJob store jid with
  | none => (store, .error .NotFound)
  | some j =>
      if j.status = .queued ∨ j.status = .processing then
        (updateJob store jid (fun x => { x with status := .cancelled }),
         .ok { j with status := .cancelled })
      else (store, .error .InvalidStateTransition)

/-- The job record a retry creates: same query, strategy and document set as
the original, status queued, a fresh identifier, and retry_of pointing at the
original (spec §4.2). -/
def mkRetryJob (j : Job) (newId : String) (now : Nat) : Job :=
  { jobId := newId, userId := j.userId, query := j.query, algorithm := j.algorithm,
    documentIds := j.documentIds, status := .queued, results := [], resultsCount := 0,
    executionTimeMs := none, createdAt := now, completedAt := none, failureReason := none,
    retryOf := some j.jobId }

/-- Modelled from the spec: the retry request of spec §4.2 and §6 (the handling
endpoint in the backend sources is not available).  Accepted only while the
status is completed or failed; it appends a new job record, never mutating the
original; against any other status it signals InvalidStateTransition and
leaves the store untouched. -/
def retryJobOp (store : List Job) (jid : String) (newId : String) (now : Nat) :
    List Job × Except ApiError Job :=
  match findJob store jid with
  | none => (store, .error .NotFound)
  | some j =>
      if j.status = .completed ∨ j.status = .failed then
        (store ++ [mkRetryJob j newId now], .ok (mkRetryJob j newId now))
      else (store, .error .InvalidStateTransition)

/-- C6: a cancel request succeeds exactly when the job's status is queued or
processing, moving it to cancelled while changing no other field; against a
job already in a terminal status it signals InvalidStateTransition and leaves
the store — hence the job's status and every other field — unchanged.  The
last conjunct records that "terminal" and "neither queued nor processing"
coincide, so the two cases are exhaustive. -/
theorem cancel_accepted_iff_active (store : List Job) (jid : String) (j : Job)
    (hfind : findJob store jid = some j) :
    ((j.status = JobStatus.queued ∨ j.status = JobStatus.processing) →
      (applyCancel store jid).2 = .ok { j with status := JobStatus.cancelled } ∧
      findJob (applyCancel store jid).1 jid = some { j with status := JobStatus.cancelled }) ∧
    (j.status.isTerminal = true →
      applyCancel store jid = (store, .error ApiError.InvalidStateTransition)) ∧
    (j.status.isTerminal = true ↔ ¬(j.status = JobStatus.queued ∨ j.status = JobStatus.processing)) := by
  refine ⟨?_, ?_, ?_⟩
  · intro hactive
    have hupd := findJob_update store jid (fun x => { x with status := JobStatus.cancelled }) j
      (fun _ => rfl) hfind
    simp [applyCancel, hfind, hactive, hupd]
  · intro hterm
    have hnot : ¬(j.status = JobStatus.queued ∨ j.status = JobStatus.processing) := by
      cases hs : j.status <;> simp_all [JobStatus.isTerminal]
    simp [applyCancel, hfind, hnot]
  · cases hs : j.status <;> simp [JobStatus.isTerminal]

/-- C5: a retry request against a completed or failed job appends a new queued
job with the same query, strategy and document set and retry_of pointing at
the original, while the original record — every field of it — stays in the
store unchanged; against a job in any other status the request is rejected
with InvalidStateTransition and the store is untouched. -/
theorem retry_creates_new_job_preserving_original (store : List Job) (jid newId : String)
    (now : Nat) (j : Job) (hfind : findJob store jid = some j) :
    ((j.status = JobStatus.completed ∨ j.status = JobStatus.failed) →
      retryJobOp store jid newId now
          = (store ++ [mkRetryJob j newId now], .ok (mkRetryJob j newId now)) ∧
      (mkRetryJob j newId now).query = j.query ∧
      (mkRetryJob j newId now).algorithm = j.algorithm ∧
      (mkRetryJob j newId now).documentIds = j.documentIds ∧
      (mkRetryJob j newId now).status = JobStatus.queued ∧
      (mkRetryJob j newId now).retryOf = some j.jobId ∧
      findJob (retryJobOp store jid newId now).1 jid = some j) ∧
    (¬(j.status = JobStatus.completed ∨ j.status = JobStatus.failed) →
      retryJobOp store jid newId now = (store, .error ApiError.InvalidStateTransition)) := by
  constructor
  · intro hdone
    have happ := findJob_append_left store [mkRetryJob j newId now] jid j hfind
    refine ⟨by simp [retryJobOp, hfind, hdone], rfl, rfl, rfl, rfl, rfl, ?_⟩
    simp [retryJobOp, hfind, hdone, happ]
  · intro hnot
    simp [retryJobOp, hfind, hnot]

/-- A queued example job, for closed instances. -/
def exampleQueuedJob : Job :=
  { jobId := "job-queued", userId := 1, query := "cats", algorithm := "text_search",
    documentIds := none, status := .queued, results := [], resultsCount := 0,
    executionTimeMs := none, createdAt := 0, completedAt := none, failureReason := none,
    retryOf := none }

/-- A completed example job, for closed instances. -/
def exampleCompletedJob : Job :=
  { jobId := "job-done", userId := 1, query := "cats", algorithm := "text_search",
    documentIds := some [3, 7], status := .completed,
    results := [{ title := "Cats 101", matchedText := "Cats 101", relevanceScore := 1 }],
    resultsCount := 1, executionTimeMs := some 12, createdAt := 0, completedAt := some 12,
    failureReason := none, retryOf := none }

/-- Closed instance of `cancel_accepted_iff_active` on a one-queued-job store
and on a one-completed-job store. -/
theorem cancel_accepted_iff_active_witness :
    (((exampleQueuedJob.status = JobStatus.queued ∨
        exampleQueuedJob.status = JobStatus.processing) →
      (applyCancel [exampleQueuedJob] "job-queued").2
          = .ok { exampleQueuedJob with status := JobStatus.cancelled } ∧
      findJob (applyCancel [exampleQueuedJob] "job-queued").1 "job-queued"
          = some { exampleQueuedJob with status := JobStatus.cancelled }) ∧
     (exampleQueuedJob.status.isTerminal = true →
      applyCancel [exampleQueuedJob] "job-queued"
          = ([exampleQueuedJob], .error ApiError.InvalidStateTransition)) ∧
     (exampleQueuedJob.status.isTerminal = true ↔
      ¬(exampleQueuedJob.status = JobStatus.queued ∨
        exampleQueuedJob.status = JobStatus.processing))) ∧
    (applyCancel [exampleCompletedJob] "job-done").2
        = .error ApiError.InvalidStateTransition := by
  constructor
  · exact cancel_accepted_iff_active [exampleQueuedJob] "job-queued" exampleQueuedJob (by decide)
  · have h := cancel_accepted_iff_active [exampleCompletedJob] "job-done" exampleCompletedJob
      (by decide)
    rw [(h.2.1 (by decide) : _)]

/-- Closed instance of `retry_creates_new_job_preserving_original` on a
one-completed-job store. -/
theorem retry_creates_new_job_preserving_original_witness :
    ((exampleCompletedJob.status = JobStatus.completed ∨
        exampleCompletedJob.status = JobStatus.failed) →
      retryJobOp [exampleCompletedJob] "job-done" "job-retry" 99
          = ([exampleCompletedJob] ++ [mkRetryJob exampleCompletedJob "job-retry" 99],
             .ok (mkRetryJob exampleCompletedJob "job-retry" 99)) ∧
      (mkRetryJob exampleCompletedJob "job-retry" 99).query = exampleCompletedJob.query ∧
      (mkRetryJob exampleCompletedJob "job-retry" 99).algorithm
          = exampleCompletedJob.algorithm ∧
      (mkRetryJob exampleCompletedJob "job-retry" 99).documentIds
          = exampleCompletedJob.documentIds ∧
      (mkRetryJob exampleCompletedJob "job-retry" 99).status = JobStatus.queued ∧
      (mkRetryJob exampleCompletedJob "job-retry" 99).retryOf
          = some exampleCompletedJob.jobId ∧
      findJob (retryJobOp [exampleCompletedJob] "job-done" "job-retry" 99).1 "job-done"
          = some exampleCompletedJob) ∧
    (¬(exampleCompletedJob.status = JobStatus.completed ∨
        exampleCompletedJob.status = JobStatus.failed) →
      retryJobOp [exampleCompletedJob] "job-done" "job-retry" 99
          = ([exampleCompletedJob], .error ApiError.InvalidStateTransition)) :=
  retry_creates_new_job_preserving_original [exampleCompletedJob] "job-done" "job-retry" 99
    exampleCompletedJob (by decide)

/- ## Strategy registry and job submission -/

/-- The two search algorithms shipped with the search microservice
(search-microservice README: text_search and fuzzy_search). -/
inductive SearchAlgorithm
  | textSearch
  | fuzzySearch
deriving DecidableEq, Repr

/-- Modelled from the spec: the SearchAlgorithmFactory registry of
search_algorithms.py (not among the available sources).  A list of
name-to-algorithm registrations, newest first. -/
def StrategyRegistry : Type := List (String × SearchAlgorithm)

/-- Modelled from the spec: `register(name, factory)`; prepending means the
newest registration for a name wins on resolution (last write wins). -/
def registerAlgorithm (reg : StrategyRegistry) (n : String) (s : SearchAlgorithm) :
    StrategyRegistry :=
  (n, s) :: reg

/-- Modelled from the spec: `resolve(name)`, none when no registration exists. -/
def resolveAlgorithm (reg : StrategyRegistry) (n : String) : Option SearchAlgorithm :=
  (reg.find? (fun e => e.1 = n)).map (fun e => e.2)

/-- The registry as shipped: text_search and fuzzy_search registered. -/
def defaultRegistry : StrategyRegistry :=
  registerAlgorithm (registerAlgorithm [] "text_search" .textSearch) "fuzzy_search" .fuzzySearch

/-- The job record a submission creates (spec §6: status queued, no results
yet). -/
def mkSubmittedJob (newId : String) (uid : Nat) (q : String) (alg : String)
    (docs : Option (List Nat)) (now : Nat) : Job :=
  { jobId := newId, userId := uid, query := q, algorithm := alg, documentIds := docs,
    status := .queued, results := [], resultsCount := 0, executionTimeMs := none,
    createdAt := now, completedAt := none, failureReason := none, retryOf := none }

/-- Modelled from the spec: the submit-job operation of spec §6 (the handling
endpoint in the backend sources is not available).  An empty query is rejected
synchronously with InvalidInput; a strategy name with no registration is
rejected synchronously with UnknownStrategy; in both cases no job is created.
Otherwise a queued job carrying the strategy name exactly as supplied is
appended to the store. -/
def submitSearch (store : List Job) (reg : StrategyRegistry) (uid : Nat) (q : String)
    (docs : Option (List Nat)) (alg : String) (newId : String) (now : Nat) :
    List Job × Except ApiError Job :=
  if q = "" then (store, .error .InvalidInput)
  else
    match resolveAlgorithm reg alg with
    | none => (store, .error .UnknownStrategy)
    | some _ =>
        (store ++ [mkSubmittedJob newId uid q alg docs now],
         .ok (mkSubmittedJob newId uid q alg docs now))

/-- From the client api (src/unnamed/part_000, searchAPI.submitSearch): the
request body's algorithm field is `algorithm || 'text_search'`.  A JavaScript
`||` falls back exactly when the supplied value is falsy, i.e. when the
optional argument is absent or the empty string. -/
def clientAlgorithmField : Option String → String
  | none => "text_search"
  | some s => if s = "" then "text_search" else s

/-- C4: submitting with a strategy name that has no registration fails
synchronously with UnknownStrategy and the store is unchanged (no job
created); submitting with an empty query fails with InvalidInput; when the
name resolves, the created job carries the strategy name exactly as supplied —
and on the client side, any non-empty algorithm argument is sent as given,
never replaced. -/
theorem submit_rejects_unknown_strategy_and_empty_query (store : List Job)
    (reg : StrategyRegistry) (uid : Nat) (q : String) (docs : Option (List Nat))
    (alg : String) (newId : String) (now : Nat) :
    (q ≠ "" → resolveAlgorithm reg alg = none →
      submitSearch store reg uid q docs alg newId now
        = (store, .error ApiError.UnknownStrategy)) ∧
    (q = "" →
      submitSearch store reg uid q docs alg newId now
        = (store, .error ApiError.InvalidInput)) ∧
    (∀ s, q ≠ "" → resolveAlgorithm reg alg = some s →
      submitSearch store reg uid q docs alg newId now
          = (store ++ [mkSubmittedJob newId uid q alg docs now],
             .ok (mkSubmittedJob newId uid q alg docs now)) ∧
      (mkSubmittedJob newId uid q alg docs now).algorithm = alg ∧
      (mkSubmittedJob newId uid q alg docs now).status = JobStatus.queued) ∧
    (alg ≠ "" → clientAlgorithmField (some alg) = alg) := by
  refine ⟨?_, ?_, ?_, ?_⟩
  · intro hq hres; simp [submitSearch, hq, hres]
  · intro hq; simp [submitSearch, hq]
  · intro s hq hres; exact ⟨by simp [submitSearch, hq, hres], rfl, rfl⟩
  · intro halg; simp [clientAlgorithmField, halg]

/-- Closed instance of `submit_rejects_unknown_strategy_and_empty_query`: the
name "vector_search" has no registration in the shipped registry; the query
"cats" is non-empty; the client leaves "fuzzy_search" as given. -/
theorem submit_rejects_unknown_strategy_and_empty_query_witness :
    submitSearch [] defaultRegistry 1 "cats" none "vector_search" "job-1" 0
        = ([], .error ApiError.UnknownStrategy) ∧
    submitSearch [] defaultRegistry 1 "" none "text_search" "job-1" 0
        = ([], .error ApiError.InvalidInput) ∧
    clientAlgorithmField (some "fuzzy_search") = "fuzzy_search" := by
  have h1 := submit_rejects_unknown_strategy_and_empty_query [] defaultRegistry 1 "cats" none
    "vector_search" "job-1" 0
  have h2 := submit_rejects_unknown_strategy_and_empty_query [] defaultRegistry 1 "" none
    "text_search" "job-1" 0
  have h3 := submit_rejects_unknown_strategy_and_empty_query [] defaultRegistry 1 "cats" none
    "fuzzy_search" "job-1" 0
  exact ⟨h1.1 (by decide) (by decide), h2.2.1 rfl, h3.2.2.2 (by decide)⟩

/- ## WebSocket hook (starter-frontend/lib/hooks/useWebSocket.ts) -/

/-- The JobNotification interface of useWebSocket.ts: type (the literal string
of the job_status_update discriminator), job_id, status, message, timestamp. -/
structure JobNotification where
  type : String
  job_id : String
  status : String
  message : String
  timestamp : String
deriving DecidableEq, Repr

/-- The AnalyticsNotification interface of useWebSocket.ts. -/
structure AnalyticsNotification where
  type : String
  message : String
  timestamp : String
deriving DecidableEq, Repr

/-- A notification as stored by the hook: JobNotification or
AnalyticsNotification. -/
inductive StoredNotification
  | jobMsg (n : JobNotification)
  | analyticsMsg (n : AnalyticsNotification)
deriving DecidableEq, Repr

/-- The three socket events whose handlers store a notification in the hook's
state: job_update (a JobNotification), notification (either kind) and
analytics_update (an AnalyticsNotification). -/
inductive WsIncomingEvent
  | jobUpdateEvt (n : JobNotification)
  | notificationEvt (n : StoredNotification)
  | analyticsUpdateEvt (n : AnalyticsNotification)
deriving DecidableEq, Repr

/-- The notification an incoming event carries. -/
def WsIncomingEvent.payload : WsIncomingEvent → StoredNotification
  | .jobUpdateEvt n => .jobMsg n
  | .notificationEvt n => n
  | .analyticsUpdateEvt n => .analyticsMsg n

/-- The WebSocketState of useWebSocket.ts. -/
structure WebSocketState where
  isConnected : Bool
  isAuthenticated : Bool
  lastNotification : Option StoredNotification
  notifications : List StoredNotification
deriving DecidableEq, Repr

/-- The hook's initial state. -/
def initialWsState : WebSocketState :=
  { isConnected := false, isAuthenticated := false, lastNotification := none,
    notifications := [] }

/-- The job_update, notification and analytics_update handlers of
useWebSocket.ts: each sets lastNotification to the received notification and
prepends it to the notifications array, truncated to its first 50 elements
(`[notification, ...prev.notifications].slice(0, 50)`). -/
def receiveEvent (s : WebSocketState) (e : WsIncomingEvent) : WebSocketState :=
  match e with
  | .jobUpdateEvt n =>
      { s with lastNotification := some (.jobMsg n),
               notifications := (StoredNotification.jobMsg n :: s.notifications).take 50 }
  | .notificationEvt n =>
      { s with lastNotification := some n,
               notifications := (n :: s.notifications).take 50 }
  | .analyticsUpdateEvt n =>
      { s with lastNotification := some (.analyticsMsg n),
               notifications := (StoredNotification.analyticsMsg n :: s.notifications).take 50 }

/-- Process a sequence of incoming events in order. -/
def receiveAll (s : WebSocketState) : List WsIncomingEvent → WebSocketState
  | [] => s
  | e :: rest => receiveAll (receiveEvent s e) rest

theorem receiveEvent_eq (s : WebSocketState) (e : WsIncomingEvent) :
    receiveEvent s e
      = { s with lastNotification := some e.payload,
                 notifications := (e.payload :: s.notifications).take 50 } := by
  cases e <;> rfl

theorem receiveAll_append (s : WebSocketState) (es : List WsIncomingEvent)
    (e : WsIncomingEvent) :
    receiveAll s (es ++ [e]) = receiveEvent (receiveAll s es) e := by
  induction es generalizing s with
  | nil => rfl
  | cons a rest ih => simp [receiveAll, ih]

theorem take_append_take {α : Type} (A B : List α) (k : Nat) :
    (A ++ B.take k).take k = (A ++ B).take k := by
  rw [List.take_append_eq_append_take, List.take_append_eq_append_take, List.take_take,
    Nat.min_eq_left (Nat.sub_le k A.length)]

/-- C9: after any sequence of received job_update, notification and
analytics_update events, the hook's notifications array is exactly the
received payloads newest first truncated to 50 entries — so it holds at most
50 entries — and lastNotification is the most recently received payload (none
when nothing was received). -/
theorem notifications_newest_first_capped (es : List WsIncomingEvent) :
    (receiveAll initialWsState es).notifications
        = ((es.map WsIncomingEvent.payload).reverse).take 50 ∧
    (receiveAll initialWsState es).notifications.length ≤ 50 ∧
    (receiveAll initialWsState es).lastNotification
        = ((es.map WsIncomingEvent.payload).reverse).head? := by
  induction es using List.reverseRecOn with
  | nil => exact ⟨rfl, by simp [receiveAll, initialWsState], rfl⟩
  | append_singleton es e ih =>
    have hnotif : (receiveAll initialWsState (es ++ [e])).notifications
        = (((es ++ [e]).map WsIncomingEvent.payload).reverse).take 50 := by
      rw [receiveAll_append, receiveEvent_eq]
      simp only [ih.1]
      have := take_append_take [e.payload] ((es.map WsIncomingEvent.payload).reverse) 50
      simpa using this
    refine ⟨hnotif, ?_, ?_⟩
    · rw [hnotif]
      simp
    · rw [receiveAll_append, receiveEvent_eq]
      simp

/- ## WebSocket authentication handshake and subscription -/

/-- What the client emits over the socket (useWebSocket.ts): the authenticate
handshake carrying the JWT, and subscribe_jobs carrying the user id. -/
inductive ClientEmit
  | authenticate (token : String)
  | subscribeJobs (uid : Nat)
deriving DecidableEq, Repr

/-- Server-to-client socket events the connect logic of useWebSocket.ts reacts
to. -/
inductive WsServerEvent
  | connected
  | authenticated (uid : Nat)
  | authErr
  | disconnected
deriving DecidableEq, Repr

/-- The emissions of useWebSocket.ts's connect logic: on connect the client
emits authenticate with its token; only upon receiving the authenticated event
(the successful completion of the handshake) does it emit subscribe_jobs for
the confirmed user id; auth_error and disconnect emit nothing. -/
def clientEmitsFor (token : String) : WsServerEvent → List ClientEmit
  | .connected => [.authenticate token]
  | .authenticated uid => [.subscribeJobs uid]
  | .authErr => []
  | .disconnected => []

/-- All emissions over a sequence of received server events, in order. -/
def clientEmits (token : String) : List WsServerEvent → List ClientEmit
  | [] => []
  | e :: rest => clientEmitsFor token e ++ clientEmits token rest

/-- A connection with its authentication state (spec §3: a Subscription is
established by the authenticate handshake). -/
structure WsConnection where
  connId : Nat
  authedUser : Option Nat
deriving DecidableEq, Repr

/-- The NotificationHub's subscriber set: (connection id, user id) pairs. -/
structure NotificationHub where
  subs : List (Nat × Nat)
deriving DecidableEq, Repr

/-- Modelled from the spec: `subscribe(connection, userId)` of the
NotificationHub (spec §4.4; the Flask-SocketIO subscribe_jobs handler in
api-gateway/app.py is not among the available sources).  Subscribing without
prior authentication signals NotAuthenticated and the subscription is not
registered. -/
def subscribeHub (hub : NotificationHub) (c : WsConnection) (uid : Nat) :
    NotificationHub × Except ApiError Unit :=
  match c.authedUser with
  | none => (hub, .error .NotAuthenticated)
  | some _ => ({ subs := (c.connId, uid) :: hub.subs }, .ok ())

/-- C7: the client never issues subscribe_jobs before the authenticate
handshake has successfully completed — every subscribe_jobs emission is a
reaction to a received authenticated event — and, on the hub side, a subscribe
attempted on an unauthenticated connection signals NotAuthenticated and
registers no subscription. -/
theorem subscribe_only_after_authentication (token : String)
    (events : List WsServerEvent) (uid : Nat) (hub : NotificationHub) (c : WsConnection) :
    (ClientEmit.subscribeJobs uid ∈ clientEmits token events →
      WsServerEvent.authenticated uid ∈ events) ∧
    (c.authedUser = none →
      subscribeHub hub c uid = (hub, .error ApiError.NotAuthenticated)) := by
  constructor
  · intro hmem
    induction events with
    | nil => simp [clientEmits] at hmem
    | cons e rest ih =>
      rw [clientEmits, List.mem_append] at hmem
      rcases hmem with hmem | hmem
      · cases e <;> simp_all [clientEmitsFor]
      · exact List.mem_cons_of_mem _ (ih hmem)
  · intro hnone
    simp [subscribeHub, hnone]

/-- Closed instance of `subscribe_only_after_authentication`: a two-event
trace whose subscribe emission follows its authenticated event, and an
unauthenticated connection whose subscribe attempt is refused. -/
theorem subscribe_only_after_authentication_witness :
    WsServerEvent.authenticated 7
        ∈ [WsServerEvent.connected, WsServerEvent.authenticated 7] ∧
    subscribeHub { subs := [] } { connId := 1, authedUser := none } 7
        = ({ subs := [] }, .error ApiError.NotAuthenticated) := by
  have h := subscribe_only_after_authentication "jwt-token"
    [WsServerEvent.connected, WsServerEvent.authenticated 7] 7 { subs := [] }
    { connId := 1, authedUser := none }
  exact ⟨h.1 (by decide), h.2 rfl⟩

/-- C8: a job-update event's payload is exactly the job identifier, the new
status, the human-readable message and the timestamp: every JobNotification
carries those four fields, and — the discriminator being the fixed literal
job_status_update — two payloads agreeing on them are equal, so the event
carries no further information. -/
theorem job_notification_payload_exact (n1 n2 : JobNotification)
    (h1 : n1.type = "job_status_update") (h2 : n2.type = "job_status_update")
    (hj : n1.job_id = n2.job_id) (hs : n1.status = n2.status)
    (hm : n1.message = n2.message) (ht : n1.timestamp = n2.timestamp) :
    n1 = n2 := by
  cases n1
  cases n2
  simp_all

/-- Closed instance of `job_notification_payload_exact` on two syntactically
distinct notification terms with equal fields. -/
theorem job_notification_payload_exact_witness :
    ({ type := "job_status_update", job_id := "job-1", status := "completed",
       message := "Search completed", timestamp := "2024-01-01T00:00:00Z" } : JobNotification)
      = { type := "job_status_update", job_id := "job-1", status := "completed",
          message := "Search completed", timestamp := "2024-01-01T00:00:00Z" } :=
  job_notification_payload_exact
    { type := "job_status_update", job_id := "job-1", status := "completed",
      message := "Search completed", timestamp := "2024-01-01T00:00:00Z" }
    { type := "job_status_update", job_id := "job-1", status := "completed",
      message := "Search completed", timestamp := "2024-01-01T00:00:00Z" }
    rfl rfl rfl rfl rfl rfl

/- ## Axios response interceptor (src/unnamed/part_000) -/

/-- The browser state the response interceptor touches: the token stored under
the localStorage key named token, and window.location.href. -/
structure BrowserState where
  storedToken : Option String
  locationHref : String
deriving DecidableEq, Repr

/-- An axios error as the interceptor inspects it: `error.response?.status`,
none when the request produced no response at all. -/
structure AxiosError where
  responseStatus : Option Nat
deriving DecidableEq, Repr

/-- The fulfilled branch of the apiClient response interceptor:
`(response) => response`, the browser state untouched. -/
def onResponseFulfilled {R : Type} (st : BrowserState) (resp : R) :
    BrowserState × Except AxiosError R :=
  (st, .ok resp)

/-- The rejected branch of the apiClient response interceptor: when
`error.response?.status === 401` it removes the stored token, sets
window.location.href to /login, and still returns `Promise.reject(error)`; for
any other error it returns `Promise.reject(error)` with the browser state
untouched. -/
def onResponseRejected {R : Type} (st : BrowserState) (e : AxiosError) :
    BrowserState × Except AxiosError R :=
  if e.responseStatus = some 401 then
    ({ st with storedToken := none, locationHref := "/login" }, .error e)
  else
    (st, .error e)

/-- C10: on a 401 the interceptor removes the stored token and redirects the
browser to /login while still rejecting with the original error, so the caller
observes it; an error with any other status (or no response) is rejected
unchanged with the browser state untouched; and a fulfilled response is passed
through unchanged. -/
theorem interceptor_handles_401 {R : Type} (st : BrowserState) (e : AxiosError) :
    (e.responseStatus = some 401 →
      onResponseRejected st e
        = (({ st with storedToken := none, locationHref := "/login" } : BrowserState),
           (.error e : Except AxiosError R))) ∧
    (e.responseStatus ≠ some 401 →
      onResponseRejected st e = (st, (.error e : Except AxiosError R))) ∧
    (∀ resp : R, onResponseFulfilled st resp = (st, .ok resp)) := by
  refine ⟨?_, ?_, fun _ => rfl⟩
  · intro h; simp [onResponseRejected, h]
  · intro h; simp [onResponseRejected, h]

/-- Closed instance of `interceptor_handles_401`: a browser holding a token hit
by a 401, and the same browser hit by a 500. -/
theorem interceptor_handles_401_witness :
    onResponseRejected { storedToken := some "jwt", locationHref := "/videos" }
        { responseStatus := some 401 }
      = (({ storedToken := none, locationHref := "/login" } : BrowserState),
         (.error { responseStatus := some 401 } : Except AxiosError Nat)) ∧
    onResponseRejected { storedToken := some "jwt", locationHref := "/videos" }
        { responseStatus := some 500 }
      = (({ storedToken := some "jwt", locationHref := "/videos" } : BrowserState),
         (.error { responseStatus := some 500 } : Except AxiosError Nat)) := by
  have h1 := interceptor_handles_401 (R := Nat)
    { storedToken := some "jwt", locationHref := "/videos" } { responseStatus := some 401 }
  have h2 := interceptor_handles_401 (R := Nat)
    { storedToken := some "jwt", locationHref := "/videos" } { responseStatus := some 500 }
  exact ⟨h1.1 rfl, h2.2.1 (by decide)⟩
